import Mathlib

/-!
Shallow embedding of the IP_Smart_LMS attendance application (src/main.py).

The application is CRUD over two MongoDB collections (codes, attendance)
behind FastAPI routes.  We model:
  * timestamps as natural numbers (seconds);
  * a MongoDB collection as a Lean list in insertion order, `find_one` as
    `List.find?`, `insert_one` as appending, `find(...).sort(k, dir)` as
    `List.filter` followed by `List.insertionSort` on the key, and
    `to_list(length = n)` as `List.take n`;
  * Python `str.startswith`, `str.split(",")[0]`, `str.strip()` over the
    character list of a `String`;
  * `random.choices(string.digits, k = n)` as indexing `string.digits`
    through an arbitrary draw function `pick : Nat -> Nat`.
-/

/-- Python `s.startswith(p)`. -/
def pyStartsWith (s p : String) : Bool :=
  p.data.isPrefixOf s.data

/-- Python `s.split(",")[0]`: everything before the first comma
(the whole string when there is no comma). -/
def firstCommaEntry (s : String) : String :=
  String.mk (s.data.takeWhile (fun c => c != ','))

/-- Python `s.strip()`: drop leading and trailing whitespace. -/
def pyStrip (s : String) : String :=
  String.mk (((s.data.dropWhile Char.isWhitespace).reverse.dropWhile
    Char.isWhitespace).reverse)

/-- Python truthiness of a string: `""` is falsy, anything else truthy. -/
def stringTruthy (s : String) : Bool :=
  !(s == "")

/-- A document of the `codes` collection (`code_collection`), as built by
`create_code` in src/main.py.  `id` models the MongoDB `_id`. -/
structure Code where
  id : Nat
  session_date : String
  attendance_code : String
  created_at : Nat
  valid_until : Nat
deriving DecidableEq

/-- A document of the `attendance` collection (`attendance_collection`),
as built by `student_attend` in src/main.py. -/
structure AttendanceRecord where
  student_name : String
  session_date : String
  attendance_code : String
  ip : String
  ip_status : String
  ip_status_message : String
  timestamp : Nat
deriving DecidableEq

/-- The persistent state: both collections, each in insertion order. -/
structure AppState where
  codes : List Code
  attendance : List AttendanceRecord
deriving DecidableEq

/-- The request data `get_client_ip` consults: the `x-forwarded-for`
header (`none` when the header is absent) and `request.client.host`
(`""` when the socket peer address is absent). -/
structure Request where
  xff : Option String
  client_host : String
deriving DecidableEq

/-- `request.client.host or "unknown"` from src/main.py line 21. -/
def clientHostOrUnknown (req : Request) : String :=
  if stringTruthy req.client_host then req.client_host else "unknown"

/-- `get_client_ip` from src/main.py lines 15-21. -/
def get_client_ip (req : Request) : String :=
  match req.xff with
  | some s =>
      if stringTruthy s then pyStrip (firstCommaEntry s)
      else clientHostOrUnknown req
  | none => clientHostOrUnknown req

/-- Python's `string.digits`. -/
def string_digits : List Char :=
  ['0', '1', '2', '3', '4', '5', '6', '7', '8', '9']

/-- `generate_code` from src/main.py lines 35-36:
`"".join(random.choices(string.digits, k=length))`.  The random draws are
modelled by `pick`; draw `i` selects `string_digits[pick i % 10]`. -/
def generate_code (pick : Nat → Nat) (len : Nat) : String :=
  String.mk ((List.range len).map (fun i => string_digits.getD (pick i % 10) '0'))

/-- `CAMPUS_PREFIXES` from src/main.py line 38. -/
def CAMPUS_PREFIXES : List String :=
  ["210.108.18."]

/-- `classify_ip` from src/main.py lines 40-54. -/
def classify_ip (ip : String) : String × String :=
  if pyStartsWith ip ("127.") || ip == "::1" then
    ("DEV", "💻 로컬 개발 환경 (교내 여부 판단 안 함)")
  else if CAMPUS_PREFIXES.any (fun p => pyStartsWith ip p) then
    ("NORMAL", "✅ 교내 WiFi (신뢰도 높음)")
  else if pyStartsWith ip ("10.") || pyStartsWith ip ("192.168.") then
    ("WARNING", "⚠ 인접 강의실/내부망 (확인 필요)")
  else
    ("SUSPICIOUS", "❗ 외부망 (LTE 등) 의심됨")

/-- Ascending `valid_until` order (`.sort("valid_until", 1)`). -/
def codeVuLE (a b : Code) : Prop :=
  a.valid_until ≤ b.valid_until

/-- Descending `valid_until` order (`.sort("valid_until", -1)`). -/
def codeVuGE (a b : Code) : Prop :=
  b.valid_until ≤ a.valid_until

/-- Descending `timestamp` order (`.sort("timestamp", -1)`). -/
def attTsGE (a b : AttendanceRecord) : Prop :=
  b.timestamp ≤ a.timestamp

instance : DecidableRel codeVuLE :=
  fun a b => Nat.decLe a.valid_until b.valid_until

instance : DecidableRel codeVuGE :=
  fun a b => Nat.decLe b.valid_until a.valid_until

instance : DecidableRel attTsGE :=
  fun a b => Nat.decLe b.timestamp a.timestamp

instance : IsTotal Code codeVuLE :=
  ⟨fun a b => Nat.le_total a.valid_until b.valid_until⟩

instance : IsTrans Code codeVuLE :=
  ⟨fun _ _ _ h1 h2 => Nat.le_trans h1 h2⟩

instance : IsTotal Code codeVuGE :=
  ⟨fun a b => (Nat.le_total b.valid_until a.valid_until).symm.symm⟩

instance : IsTrans Code codeVuGE :=
  ⟨fun _ _ _ h1 h2 => Nat.le_trans h2 h1⟩

instance : IsTotal AttendanceRecord attTsGE :=
  ⟨fun a b => Nat.le_total b.timestamp a.timestamp⟩

instance : IsTrans AttendanceRecord attTsGE :=
  ⟨fun _ _ _ h1 h2 => Nat.le_trans h2 h1⟩

/-- The `code_collection.find_one` filter of src/main.py lines 114-120:
`session_date` and `attendance_code` match and `valid_until > now`. -/
def codeMatches (session_date attendance_code : String) (now : Nat) (c : Code) : Bool :=
  c.session_date == session_date && c.attendance_code == attendance_code &&
    Nat.blt now c.valid_until

/-- The `attendance_collection.find_one` filter of src/main.py lines
125-131: the (`student_name`, `session_date`, `attendance_code`) triple. -/
def attMatches (student_name session_date attendance_code : String)
    (a : AttendanceRecord) : Bool :=
  a.session_date == session_date && a.attendance_code == attendance_code &&
    a.student_name == student_name

/-- Outcome of a `POST /student/attend` submission, per the result
message chosen in src/main.py lines 122-146. -/
inductive Outcome where
  | Recorded
  | AlreadyRecorded
  | CodeInvalidOrExpired
deriving DecidableEq

/-- What `student_attend` produces: the outcome, the classification
message handed to the template, and the updated state. -/
structure AttendResult where
  outcome : Outcome
  ip_status_message : String
  state : AppState
deriving DecidableEq

/-- `student_attend` from src/main.py lines 103-159 (the state-relevant
part: IP derivation, classification, code lookup, duplicate check,
insert). -/
def student_attend (st : AppState) (req : Request)
    (student_name session_date attendance_code : String) (now : Nat) :
    AttendResult :=
  let client_ip := get_client_ip req
  let cls := classify_ip client_ip
  match st.codes.find? (codeMatches session_date attendance_code now) with
  | none => ⟨Outcome.CodeInvalidOrExpired, cls.2, st⟩
  | some _ =>
      match st.attendance.find? (attMatches student_name session_date attendance_code) with
      | some _ => ⟨Outcome.AlreadyRecorded, cls.2, st⟩
      | none =>
          let attend_doc : AttendanceRecord :=
            ⟨student_name, session_date, attendance_code, client_ip,
              cls.1, cls.2, now⟩
          ⟨Outcome.Recorded, cls.2,
            { st with attendance := st.attendance ++ [attend_doc] }⟩

/-- What `GET /teacher` renders: the two code lists. -/
structure TeacherPage where
  active_codes : List Code
  past_codes : List Code
deriving DecidableEq

/-- `teacher_page` from src/main.py lines 163-190: active codes
(`valid_until > now`) ascending by `valid_until`, capped by
`to_list(length=20)`; past codes (`valid_until <= now`) descending,
capped by `to_list(length=30)`. -/
def teacher_page (st : AppState) (now : Nat) : TeacherPage :=
  { active_codes :=
      (((st.codes.filter (fun c => Nat.blt now c.valid_until)).insertionSort
        codeVuLE).take 20),
    past_codes :=
      (((st.codes.filter (fun c => Nat.ble c.valid_until now)).insertionSort
        codeVuGE).take 30) }

/-- `create_code` from src/main.py lines 193-214 (state-relevant part).
`newId` models the `_id` MongoDB assigns.  Returns the updated state and
the inserted document.  `valid_until = now + timedelta(minutes=minutes_valid)`,
with timestamps in seconds. -/
def create_code (st : AppState) (session_date : String) (minutes_valid : Nat)
    (pick : Nat → Nat) (now : Nat) (newId : Nat) : AppState × Code :=
  let code := generate_code pick 6
  let valid_until := now + minutes_valid * 60
  let doc : Code := ⟨newId, session_date, code, now, valid_until⟩
  ({ st with codes := st.codes ++ [doc] }, doc)

/-- What `GET /teacher/code/{code_id}` renders. -/
structure CodeDetail where
  code : Code
  is_active : Bool
  attendance_list : List AttendanceRecord
  suspicious_list : List AttendanceRecord
deriving DecidableEq

/-- The attendance filter of src/main.py lines 241-246: records for the
code's (`session_date`, `attendance_code`). -/
def recordForCode (cd : Code) (a : AttendanceRecord) : Bool :=
  a.session_date == cd.session_date && a.attendance_code == cd.attendance_code

/-- `teacher_code_detail` from src/main.py lines 219-268: resolve the
code by id (404 modelled as `none`), compute `is_active`, and the two
record lists, each sorted descending by `timestamp` and capped by
`to_list(length=500)`. -/
def teacher_code_detail (st : AppState) (code_id : Nat) (now : Nat) :
    Option CodeDetail :=
  match st.codes.find? (fun c => c.id == code_id) with
  | none => none
  | some cd =>
      some
        { code := cd,
          is_active := Nat.blt now cd.valid_until,
          attendance_list :=
            (((st.attendance.filter (recordForCode cd)).insertionSort
              attTsGE).take 500),
          suspicious_list :=
            (((st.attendance.filter
                (fun a => recordForCode cd a && a.ip_status != "NORMAL")).insertionSort
              attTsGE).take 500) }

/-- One entry of the student-facing session picker.  The source renders
`valid_until` as `end_str = strftime("%m/%d %H:%M")`; we keep the
timestamp itself. -/
structure SessionEntry where
  session_date : String
  valid_until : Nat
deriving DecidableEq

/-- The deduplication loop of `get_active_sessions` (src/main.py lines
70-84): walk the codes in order, keep the first code of each
`session_date` not yet seen. -/
def sessionsLoop : List Code → List String → List SessionEntry
  | [], _ => []
  | c :: cs, seen =>
      if c.session_date ∈ seen then sessionsLoop cs seen
      else ⟨c.session_date, c.valid_until⟩ :: sessionsLoop cs (c.session_date :: seen)

/-- The code list `get_active_sessions` iterates over (src/main.py lines
64-68): active codes ascending by `valid_until`, capped by
`to_list(length=100)`. -/
def activeCodesCapped (st : AppState) (now : Nat) : List Code :=
  ((st.codes.filter (fun c => Nat.blt now c.valid_until)).insertionSort
    codeVuLE).take 100

/-- `get_active_sessions` from src/main.py lines 57-86: the capped
active-code list, deduplicated by `session_date`. -/
def get_active_sessions (st : AppState) (now : Nat) : List SessionEntry :=
  sessionsLoop (activeCodesCapped st now) []

/-! ## Helper lemmas -/

/-- On the path where the code lookup succeeds and the duplicate lookup
fails, `student_attend` records exactly the document built at src/main.py
lines 136-144. -/
lemma student_attend_recorded_core (st : AppState) (req : Request)
    (sn sd ac : String) (now : Nat)
    (h1 : ∃ c ∈ st.codes, codeMatches sd ac now c = true)
    (h2 : ∀ a ∈ st.attendance, attMatches sn sd ac a = false) :
    student_attend st req sn sd ac now =
      ⟨Outcome.Recorded, (classify_ip (get_client_ip req)).2,
        ⟨st.codes,
          st.attendance ++
            [⟨sn, sd, ac, get_client_ip req, (classify_ip (get_client_ip req)).1,
              (classify_ip (get_client_ip req)).2, now⟩]⟩⟩ := by
  have hfind : (st.codes.find? (codeMatches sd ac now)).isSome = true :=
    List.find?_isSome.mpr h1
  obtain ⟨c0, hc0⟩ := Option.isSome_iff_exists.mp hfind
  have hnone : st.attendance.find? (attMatches sn sd ac) = none :=
    List.find?_eq_none.mpr (fun a ha => by simp [h2 a ha])
  simp [student_attend, hc0, hnone]

/-! ## Claim theorems: attendance submission -/

/-- C1: when some code document matches (`session_date`, `code`) with
`valid_until > now` and no attendance record exists for the
(`student_name`, `session_date`, `code`) triple, `submit_attendance`
yields `Recorded` and persists exactly one new attendance record carrying
the submitted fields, the client IP, the classification computed from
that IP, and the submission timestamp; the codes collection is untouched,
and the IP classification message is returned. -/
theorem student_attend_recorded_spec (st : AppState) (req : Request)
    (sn sd ac : String) (now : Nat)
    (h1 : ∃ c ∈ st.codes, codeMatches sd ac now c = true)
    (h2 : ∀ a ∈ st.attendance, attMatches sn sd ac a = false) :
    (student_attend st req sn sd ac now).outcome = Outcome.Recorded ∧
    (student_attend st req sn sd ac now).state.attendance =
      st.attendance ++
        [⟨sn, sd, ac, get_client_ip req, (classify_ip (get_client_ip req)).1,
          (classify_ip (get_client_ip req)).2, now⟩] ∧
    (student_attend st req sn sd ac now).state.codes = st.codes ∧
    (student_attend st req sn sd ac now).ip_status_message =
      (classify_ip (get_client_ip req)).2 := by
  rw [student_attend_recorded_core st req sn sd ac now h1 h2]
  exact ⟨rfl, rfl, rfl, rfl⟩

/-- Witness for C1 at a concrete state: one active code, empty
attendance collection. -/
theorem student_attend_recorded_spec_witness :
    (student_attend ⟨[⟨0, "d1", "111111", 0, 100⟩], []⟩ ⟨none, "1.2.3.4"⟩
        "alice" "d1" "111111" 10).outcome = Outcome.Recorded ∧
    (student_attend ⟨[⟨0, "d1", "111111", 0, 100⟩], []⟩ ⟨none, "1.2.3.4"⟩
        "alice" "d1" "111111" 10).state.attendance =
      [] ++
        [⟨"alice", "d1", "111111", get_client_ip ⟨none, "1.2.3.4"⟩,
          (classify_ip (get_client_ip ⟨none, "1.2.3.4"⟩)).1,
          (classify_ip (get_client_ip ⟨none, "1.2.3.4"⟩)).2, 10⟩] ∧
    (student_attend ⟨[⟨0, "d1", "111111", 0, 100⟩], []⟩ ⟨none, "1.2.3.4"⟩
        "alice" "d1" "111111" 10).state.codes = [⟨0, "d1", "111111", 0, 100⟩] ∧
    (student_attend ⟨[⟨0, "d1", "111111", 0, 100⟩], []⟩ ⟨none, "1.2.3.4"⟩
        "alice" "d1" "111111" 10).ip_status_message =
      (classify_ip (get_client_ip ⟨none, "1.2.3.4"⟩)).2 :=
  student_attend_recorded_spec ⟨[⟨0, "d1", "111111", 0, 100⟩], []⟩
    ⟨none, "1.2.3.4"⟩ "alice" "d1" "111111" 10 (by decide) (by decide)

/-- C2: when no code document matches (`session_date`, `code`) with
`valid_until > now`, `submit_attendance` yields `CodeInvalidOrExpired`
and leaves the state unchanged.  The hypothesis says nothing about the
attendance collection, so the outcome is `CodeInvalidOrExpired` even
when the student already holds a record for that pair. -/
theorem student_attend_invalid_code_spec (st : AppState) (req : Request)
    (sn sd ac : String) (now : Nat)
    (h : ∀ c ∈ st.codes, codeMatches sd ac now c = false) :
    (student_attend st req sn sd ac now).outcome = Outcome.CodeInvalidOrExpired ∧
    (student_attend st req sn sd ac now).state = st ∧
    (student_attend st req sn sd ac now).ip_status_message =
      (classify_ip (get_client_ip req)).2 := by
  have hnone : st.codes.find? (codeMatches sd ac now) = none :=
    List.find?_eq_none.mpr (fun c hc => by simp [h c hc])
  simp [student_attend, hnone]

/-- Witness for C2 at a concrete state: the only code for the pair is
expired, and the student already holds a record for the very same
triple — the outcome is still `CodeInvalidOrExpired`. -/
theorem student_attend_invalid_code_spec_witness :
    (student_attend
        ⟨[⟨0, "d1", "111111", 0, 5⟩],
          [⟨"alice", "d1", "111111", "9.9.9.9", "SUSPICIOUS", "m", 3⟩]⟩
        ⟨none, "1.2.3.4"⟩ "alice" "d1" "111111" 10).outcome =
      Outcome.CodeInvalidOrExpired ∧
    (student_attend
        ⟨[⟨0, "d1", "111111", 0, 5⟩],
          [⟨"alice", "d1", "111111", "9.9.9.9", "SUSPICIOUS", "m", 3⟩]⟩
        ⟨none, "1.2.3.4"⟩ "alice" "d1" "111111" 10).state =
      ⟨[⟨0, "d1", "111111", 0, 5⟩],
        [⟨"alice", "d1", "111111", "9.9.9.9", "SUSPICIOUS", "m", 3⟩]⟩ ∧
    (student_attend
        ⟨[⟨0, "d1", "111111", 0, 5⟩],
          [⟨"alice", "d1", "111111", "9.9.9.9", "SUSPICIOUS", "m", 3⟩]⟩
        ⟨none, "1.2.3.4"⟩ "alice" "d1" "111111" 10).ip_status_message =
      (classify_ip (get_client_ip ⟨none, "1.2.3.4"⟩)).2 :=
  student_attend_invalid_code_spec
    ⟨[⟨0, "d1", "111111", 0, 5⟩],
      [⟨"alice", "d1", "111111", "9.9.9.9", "SUSPICIOUS", "m", 3⟩]⟩
    ⟨none, "1.2.3.4"⟩ "alice" "d1" "111111" 10 (by decide)

/-- C3: when an active code matches (`session_date`, `code`) and an
attendance record already exists for the (`student_name`,
`session_date`, `code`) triple, `submit_attendance` yields
`AlreadyRecorded` and the state is unchanged. -/
theorem student_attend_already_recorded_spec (st : AppState) (req : Request)
    (sn sd ac : String) (now : Nat)
    (h1 : ∃ c ∈ st.codes, codeMatches sd ac now c = true)
    (h2 : ∃ a ∈ st.attendance, attMatches sn sd ac a = true) :
    (student_attend st req sn sd ac now).outcome = Outcome.AlreadyRecorded ∧
    (student_attend st req sn sd ac now).state = st ∧
    (student_attend st req sn sd ac now).ip_status_message =
      (classify_ip (get_client_ip req)).2 := by
  obtain ⟨c0, hc0⟩ :=
    Option.isSome_iff_exists.mp (List.find?_isSome.mpr h1)
  obtain ⟨a0, ha0⟩ :=
    Option.isSome_iff_exists.mp (List.find?_isSome.mpr h2)
  simp [student_attend, hc0, ha0]

/-- Witness for C3 at a concrete state: active code, duplicate record. -/
theorem student_attend_already_recorded_spec_witness :
    (student_attend
        ⟨[⟨0, "d1", "111111", 0, 100⟩],
          [⟨"alice", "d1", "111111", "9.9.9.9", "SUSPICIOUS", "m", 3⟩]⟩
        ⟨none, "1.2.3.4"⟩ "alice" "d1" "111111" 10).outcome =
      Outcome.AlreadyRecorded ∧
    (student_attend
        ⟨[⟨0, "d1", "111111", 0, 100⟩],
          [⟨"alice", "d1", "111111", "9.9.9.9", "SUSPICIOUS", "m", 3⟩]⟩
        ⟨none, "1.2.3.4"⟩ "alice" "d1" "111111" 10).state =
      ⟨[⟨0, "d1", "111111", 0, 100⟩],
        [⟨"alice", "d1", "111111", "9.9.9.9", "SUSPICIOUS", "m", 3⟩]⟩ ∧
    (student_attend
        ⟨[⟨0, "d1", "111111", 0, 100⟩],
          [⟨"alice", "d1", "111111", "9.9.9.9", "SUSPICIOUS", "m", 3⟩]⟩
        ⟨none, "1.2.3.4"⟩ "alice" "d1" "111111" 10).ip_status_message =
      (classify_ip (get_client_ip ⟨none, "1.2.3.4"⟩)).2 :=
  student_attend_already_recorded_spec
    ⟨[⟨0, "d1", "111111", 0, 100⟩],
      [⟨"alice", "d1", "111111", "9.9.9.9", "SUSPICIOUS", "m", 3⟩]⟩
    ⟨none, "1.2.3.4"⟩ "alice" "d1" "111111" 10 (by decide) (by decide)

/-! ## Claim theorems: IP classification and client IP derivation -/

/-- C4: `classify_ip` is total and applies four rules in order, first
match wins: "127." or "::1" gives `DEV`; a configured campus prefix
(the configured set being exactly `["210.108.18."]`) gives `NORMAL`;
"10." or "192.168." gives `WARNING`; anything else gives `SUSPICIOUS`.
Every input produces some (status, message) pair. -/
theorem classify_ip_spec (ip : String) :
    ((pyStartsWith ip ("127.") = true ∨ ip = "::1") →
      (classify_ip ip).1 = "DEV") ∧
    (¬(pyStartsWith ip ("127.") = true ∨ ip = "::1") →
      CAMPUS_PREFIXES.any (fun p => pyStartsWith ip p) = true →
      (classify_ip ip).1 = "NORMAL") ∧
    (¬(pyStartsWith ip ("127.") = true ∨ ip = "::1") →
      CAMPUS_PREFIXES.any (fun p => pyStartsWith ip p) = false →
      (pyStartsWith ip ("10.") = true ∨ pyStartsWith ip ("192.168.") = true) →
      (classify_ip ip).1 = "WARNING") ∧
    (¬(pyStartsWith ip ("127.") = true ∨ ip = "::1") →
      CAMPUS_PREFIXES.any (fun p => pyStartsWith ip p) = false →
      ¬(pyStartsWith ip ("10.") = true ∨ pyStartsWith ip ("192.168.") = true) →
      (classify_ip ip).1 = "SUSPICIOUS") ∧
    CAMPUS_PREFIXES = [("210.108.18.")] ∧
    (∃ stat msg, classify_ip ip = (stat, msg)) := by
  refine ⟨?_, ?_, ?_, ?_, rfl, ⟨(classify_ip ip).1, (classify_ip ip).2, rfl⟩⟩
  · intro h
    rcases h with h | h
    · simp [classify_ip, h]
    · subst h
      simp [classify_ip]
  · intro h1 h2
    rw [not_or] at h1
    have hA : pyStartsWith ip ("127.") = false :=
      Bool.not_eq_true _ ▸ h1.1
    have hB : (ip == "::1") = false := beq_eq_false_iff_ne.mpr h1.2
    simp [classify_ip, hA, hB, h2]
  · intro h1 h2 h3
    rw [not_or] at h1
    have hA : pyStartsWith ip ("127.") = false :=
      Bool.not_eq_true _ ▸ h1.1
    have hB : (ip == "::1") = false := beq_eq_false_iff_ne.mpr h1.2
    rcases h3 with h3 | h3 <;> simp [classify_ip, hA, hB, h2, h3]
  · intro h1 h2 h3
    rw [not_or] at h1
    have hA : pyStartsWith ip ("127.") = false :=
      Bool.not_eq_true _ ▸ h1.1
    have hB : (ip == "::1") = false := beq_eq_false_iff_ne.mpr h1.2
    rw [not_or] at h3
    have hC : pyStartsWith ip ("10.") = false :=
      Bool.not_eq_true _ ▸ h3.1
    have hD : pyStartsWith ip ("192.168.") = false :=
      Bool.not_eq_true _ ▸ h3.2
    simp [classify_ip, hA, hB, hC, hD, h2]

/-- Witness for C4: one concrete IP through each of the four rules. -/
theorem classify_ip_spec_witness :
    (classify_ip ("127.0.0.1")).1 = "DEV" ∧
    (classify_ip ("210.108.18.88")).1 = "NORMAL" ∧
    (classify_ip ("192.168.0.7")).1 = "WARNING" ∧
    (classify_ip ("8.8.8.8")).1 = "SUSPICIOUS" :=
  ⟨(classify_ip_spec ("127.0.0.1")).1 (Or.inl (by decide)),
   (classify_ip_spec ("210.108.18.88")).2.1 (by decide) (by decide),
   (classify_ip_spec ("192.168.0.7")).2.2.1 (by decide) (by decide)
     (Or.inr (by decide)),
   (classify_ip_spec ("8.8.8.8")).2.2.2.1 (by decide) (by decide) (by decide)⟩

/-- C9: the client IP is the first comma-separated entry of a non-empty
`X-Forwarded-For` header with surrounding whitespace stripped; otherwise
the socket peer address; and when that is absent (empty), the literal
string "unknown". -/
theorem get_client_ip_spec (req : Request) :
    (∀ s, req.xff = some s → s ≠ "" →
      get_client_ip req = pyStrip (firstCommaEntry s)) ∧
    ((req.xff = none ∨ req.xff = some ("")) → req.client_host ≠ "" →
      get_client_ip req = req.client_host) ∧
    ((req.xff = none ∨ req.xff = some ("")) → req.client_host = "" →
      get_client_ip req = "unknown") := by
  refine ⟨?_, ?_, ?_⟩
  · intro s hs hne
    simp [get_client_ip, hs, stringTruthy, hne]
  · intro hx hh
    rcases hx with hx | hx <;>
      simp [get_client_ip, hx, clientHostOrUnknown, stringTruthy, hh]
  · intro hx hh
    rcases hx with hx | hx <;>
      simp [get_client_ip, hx, clientHostOrUnknown, stringTruthy, hh]

/-- Witness for C9: the three derivation cases at concrete requests. -/
theorem get_client_ip_spec_witness :
    get_client_ip ⟨some (" 1.2.3.4 , 5.6.7.8"), "9.9.9.9"⟩ =
      pyStrip (firstCommaEntry (" 1.2.3.4 , 5.6.7.8")) ∧
    get_client_ip ⟨none, "7.7.7.7"⟩ = "7.7.7.7" ∧
    get_client_ip ⟨some (""), ""⟩ = "unknown" :=
  ⟨(get_client_ip_spec ⟨some (" 1.2.3.4 , 5.6.7.8"), "9.9.9.9"⟩).1
      (" 1.2.3.4 , 5.6.7.8") rfl (by decide),
   (get_client_ip_spec ⟨none, "7.7.7.7"⟩).2.1 (Or.inl rfl) (by decide),
   (get_client_ip_spec ⟨some (""), ""⟩).2.2 (Or.inr rfl) rfl⟩

/-! ## Claim theorems: code creation -/

/-- Any index into `string_digits` reduced mod 10 yields a digit. -/
lemma string_digits_getD_isDigit :
    ∀ k, k < 10 → (string_digits.getD k '0').isDigit = true := by
  decide

/-- C7: `create_code` generates a code that is exactly a 6-character
string of digits 0-9 (leading zeros permitted, via `pick` drawing any
value) and persists a document with `created_at = now` and
`valid_until = now + minutes_valid` minutes (timestamps in seconds);
the new document is the only write. -/
theorem create_code_spec (st : AppState) (sd : String) (mv : Nat)
    (pick : Nat → Nat) (now : Nat) (newId : Nat) :
    (create_code st sd mv pick now newId).2.attendance_code.length = 6 ∧
    (∀ ch ∈ (create_code st sd mv pick now newId).2.attendance_code.data,
      ch.isDigit = true) ∧
    (create_code st sd mv pick now newId).2.created_at = now ∧
    (create_code st sd mv pick now newId).2.valid_until = now + mv * 60 ∧
    (create_code st sd mv pick now newId).2.session_date = sd ∧
    (create_code st sd mv pick now newId).2.id = newId ∧
    (create_code st sd mv pick now newId).1.codes =
      st.codes ++ [(create_code st sd mv pick now newId).2] ∧
    (create_code st sd mv pick now newId).1.attendance = st.attendance := by
  refine ⟨?_, ?_, rfl, rfl, rfl, rfl, rfl, rfl⟩
  · simp [create_code, generate_code, String.length]
  · intro ch hch
    simp only [create_code, generate_code, String.data, List.mem_map,
      List.mem_range] at hch
    obtain ⟨i, _, rfl⟩ := hch
    exact string_digits_getD_isDigit (pick i % 10) (Nat.mod_lt (pick i) (by decide))

/-- Witness for C7 at concrete draws: the code is "345678", so its
length is 6 and the drawn character '3' is a digit. -/
theorem create_code_spec_witness :
    (create_code ⟨[], []⟩ "d" 10 (fun i => i + 3) 0 0).2.attendance_code.length = 6 ∧
    ('3' : Char).isDigit = true :=
  ⟨(create_code_spec ⟨[], []⟩ "d" 10 (fun i => i + 3) 0 0).1,
   (create_code_spec ⟨[], []⟩ "d" 10 (fun i => i + 3) 0 0).2.1 '3' (by decide)⟩

/-! ## Claim theorems: teacher code lists -/

/-- C6 (amended): `list_active_codes` returns exactly the up-to-20
soonest-expiring stored codes with `valid_until > now`, ascending by
`valid_until` (query capped by `to_list(length=20)`), and
`list_past_codes` returns exactly the up-to-30 latest-expired stored
codes with `valid_until <= now`, descending (capped by
`to_list(length=30)`): the lengths are `min 20 N` and `min 30 M`, every
omitted active code expires no earlier than every returned active code
(dually for past), and each list is complete whenever the matching codes
fit its cap.  In particular an expired code never appears in the active
list and an active code never appears in the past list. -/
theorem teacher_page_spec (st : AppState) (now : Nat) :
    (teacher_page st now).active_codes.length =
      min 20 (st.codes.filter (fun c => Nat.blt now c.valid_until)).length ∧
    (teacher_page st now).past_codes.length =
      min 30 (st.codes.filter (fun c => Nat.ble c.valid_until now)).length ∧
    List.Sorted codeVuLE (teacher_page st now).active_codes ∧
    List.Sorted codeVuGE (teacher_page st now).past_codes ∧
    (∀ c ∈ (teacher_page st now).active_codes,
      now < c.valid_until ∧ c ∈ st.codes) ∧
    (∀ c ∈ (teacher_page st now).past_codes,
      c.valid_until ≤ now ∧ c ∈ st.codes) ∧
    (∀ c ∈ (teacher_page st now).active_codes, ∀ c2 ∈ st.codes,
      now < c2.valid_until → c2 ∉ (teacher_page st now).active_codes →
        c.valid_until ≤ c2.valid_until) ∧
    (∀ c ∈ (teacher_page st now).past_codes, ∀ c2 ∈ st.codes,
      c2.valid_until ≤ now → c2 ∉ (teacher_page st now).past_codes →
        c2.valid_until ≤ c.valid_until) ∧
    ((st.codes.filter (fun c => Nat.blt now c.valid_until)).length ≤ 20 →
      ∀ c ∈ st.codes, now < c.valid_until →
        c ∈ (teacher_page st now).active_codes) ∧
    ((st.codes.filter (fun c => Nat.ble c.valid_until now)).length ≤ 30 →
      ∀ c ∈ st.codes, c.valid_until ≤ now →
        c ∈ (teacher_page st now).past_codes) := by
  refine ⟨?_, ?_, ?_, ?_, ?_, ?_, ?_, ?_, ?_, ?_⟩
  · show (((st.codes.filter (fun c => Nat.blt now c.valid_until)).insertionSort
      codeVuLE).take 20).length = _
    rw [List.length_take, List.length_insertionSort]
  · show (((st.codes.filter (fun c => Nat.ble c.valid_until now)).insertionSort
      codeVuGE).take 30).length = _
    rw [List.length_take, List.length_insertionSort]
  · exact List.Pairwise.sublist (List.take_sublist _ _)
      (List.sorted_insertionSort codeVuLE _)
  · exact List.Pairwise.sublist (List.take_sublist _ _)
      (List.sorted_insertionSort codeVuGE _)
  · intro c hc
    have h1 := (List.take_sublist _ _).subset hc
    rw [List.mem_insertionSort] at h1
    rw [List.mem_filter] at h1
    refine ⟨?_, h1.1⟩
    have := h1.2
    rwa [Nat.blt_eq] at this
  · intro c hc
    have h1 := (List.take_sublist _ _).subset hc
    rw [List.mem_insertionSort] at h1
    rw [List.mem_filter] at h1
    refine ⟨?_, h1.1⟩
    have := h1.2
    rwa [Nat.ble_eq] at this
  · intro c hc c2 hmem hact hnotin
    have hf : c2 ∈ st.codes.filter (fun c => Nat.blt now c.valid_until) :=
      List.mem_filter.mpr ⟨hmem, by rw [Nat.blt_eq]; exact hact⟩
    have hL : c2 ∈ (st.codes.filter
        (fun c => Nat.blt now c.valid_until)).insertionSort codeVuLE :=
      (List.mem_insertionSort codeVuLE).mpr hf
    have hdrop : c2 ∈ ((st.codes.filter
        (fun c => Nat.blt now c.valid_until)).insertionSort codeVuLE).drop 20 := by
      have hsplit := List.take_append_drop 20 ((st.codes.filter
        (fun c => Nat.blt now c.valid_until)).insertionSort codeVuLE)
      rw [← hsplit] at hL
      rcases List.mem_append.mp hL with h | h
      · exact absurd h hnotin
      · exact h
    exact (List.sorted_insertionSort codeVuLE
      _).rel_of_mem_take_of_mem_drop hc hdrop
  · intro c hc c2 hmem hpast hnotin
    have hf : c2 ∈ st.codes.filter (fun c => Nat.ble c.valid_until now) :=
      List.mem_filter.mpr ⟨hmem, by rw [Nat.ble_eq]; exact hpast⟩
    have hL : c2 ∈ (st.codes.filter
        (fun c => Nat.ble c.valid_until now)).insertionSort codeVuGE :=
      (List.mem_insertionSort codeVuGE).mpr hf
    have hdrop : c2 ∈ ((st.codes.filter
        (fun c => Nat.ble c.valid_until now)).insertionSort codeVuGE).drop 30 := by
      have hsplit := List.take_append_drop 30 ((st.codes.filter
        (fun c => Nat.ble c.valid_until now)).insertionSort codeVuGE)
      rw [← hsplit] at hL
      rcases List.mem_append.mp hL with h | h
      · exact absurd h hnotin
      · exact h
    exact (List.sorted_insertionSort codeVuGE
      _).rel_of_mem_take_of_mem_drop hc hdrop
  · intro hlen c hcm hcv
    have hf : c ∈ st.codes.filter (fun c => Nat.blt now c.valid_until) :=
      List.mem_filter.mpr ⟨hcm, by rw [Nat.blt_eq]; exact hcv⟩
    have hs : c ∈ (st.codes.filter
        (fun c => Nat.blt now c.valid_until)).insertionSort codeVuLE :=
      (List.mem_insertionSort codeVuLE).mpr hf
    have hlen2 : ((st.codes.filter
        (fun c => Nat.blt now c.valid_until)).insertionSort codeVuLE).length ≤ 20 := by
      rw [List.length_insertionSort]
      exact hlen
    show c ∈ ((st.codes.filter
      (fun c => Nat.blt now c.valid_until)).insertionSort codeVuLE).take 20
    rw [List.take_of_length_le hlen2]
    exact hs
  · intro hlen c hcm hcv
    have hf : c ∈ st.codes.filter (fun c => Nat.ble c.valid_until now) :=
      List.mem_filter.mpr ⟨hcm, by rw [Nat.ble_eq]; exact hcv⟩
    have hs : c ∈ (st.codes.filter
        (fun c => Nat.ble c.valid_until now)).insertionSort codeVuGE :=
      (List.mem_insertionSort codeVuGE).mpr hf
    have hlen2 : ((st.codes.filter
        (fun c => Nat.ble c.valid_until now)).insertionSort codeVuGE).length ≤ 30 := by
      rw [List.length_insertionSort]
      exact hlen
    show c ∈ ((st.codes.filter
      (fun c => Nat.ble c.valid_until now)).insertionSort codeVuGE).take 30
    rw [List.take_of_length_le hlen2]
    exact hs

/-- Witness for C6 at a concrete state: one active and one expired code;
the lists have the expected lengths and each code lands in its list
through the completeness clauses. -/
theorem teacher_page_spec_witness :
    (teacher_page ⟨[⟨0, "d", "c", 0, 5⟩, ⟨1, "d", "c", 0, 1⟩], []⟩ 1).active_codes.length =
      min 20 ([⟨0, "d", "c", 0, 5⟩, ⟨1, "d", "c", 0, 1⟩].filter
        (fun c : Code => Nat.blt 1 c.valid_until)).length ∧
    (⟨0, "d", "c", 0, 5⟩ : Code) ∈
      (teacher_page ⟨[⟨0, "d", "c", 0, 5⟩, ⟨1, "d", "c", 0, 1⟩], []⟩ 1).active_codes ∧
    (⟨1, "d", "c", 0, 1⟩ : Code) ∈
      (teacher_page ⟨[⟨0, "d", "c", 0, 5⟩, ⟨1, "d", "c", 0, 1⟩], []⟩ 1).past_codes :=
  ⟨(teacher_page_spec ⟨[⟨0, "d", "c", 0, 5⟩, ⟨1, "d", "c", 0, 1⟩], []⟩ 1).1,
   (teacher_page_spec ⟨[⟨0, "d", "c", 0, 5⟩,
       ⟨1, "d", "c", 0, 1⟩], []⟩ 1).2.2.2.2.2.2.2.2.1
      (by decide) ⟨0, "d", "c", 0, 5⟩ (by decide) (by decide),
   (teacher_page_spec ⟨[⟨0, "d", "c", 0, 5⟩,
       ⟨1, "d", "c", 0, 1⟩], []⟩ 1).2.2.2.2.2.2.2.2.2
      (by decide) ⟨1, "d", "c", 0, 1⟩ (by decide) (by decide)⟩

/-- Twenty-one active codes: one more than the `to_list(length=20)` cap
of the active-codes query. -/
def manyActiveCodesState : AppState :=
  ⟨(List.range 21).map (fun i => ⟨i, "d", "c", 0, i + 1⟩), []⟩

/-- Counterexample to C6 as stated: with 21 stored active codes, the
code expiring last is active (`valid_until = 21 > now = 0`) yet missing
from `list_active_codes`, because the query is capped at 20 documents. -/
theorem teacher_page_cap_counterexample :
    (⟨20, "d", "c", 0, 21⟩ : Code) ∈ manyActiveCodesState.codes ∧
    0 < (⟨20, "d", "c", 0, 21⟩ : Code).valid_until ∧
    (⟨20, "d", "c", 0, 21⟩ : Code) ∉
      (teacher_page manyActiveCodesState 0).active_codes := by
  decide

/-! ## Claim theorems: per-code review -/

/-- C5 (amended): when the code id resolves, `get_code_review` returns
`attendance_list` of length `min 500 N` and `suspicious_list` of length
`min 500 M` (each query is capped by `to_list(length=500)`), both sorted
descending by `timestamp`; the suspicious filter excludes only `NORMAL`
(so `DEV` records qualify), and it is complete whenever the matching
records fit the cap. -/
theorem teacher_code_detail_spec (st : AppState) (code_id now : Nat) (cd : Code)
    (h : st.codes.find? (fun c => c.id == code_id) = some cd) :
    ∃ d, teacher_code_detail st code_id now = some d ∧
      d.code = cd ∧
      (d.is_active = true ↔ now < cd.valid_until) ∧
      d.attendance_list.length =
        min 500 (st.attendance.filter (recordForCode cd)).length ∧
      d.suspicious_list.length =
        min 500 (st.attendance.filter
          (fun a => recordForCode cd a && a.ip_status != "NORMAL")).length ∧
      List.Sorted attTsGE d.attendance_list ∧
      List.Sorted attTsGE d.suspicious_list ∧
      (∀ a ∈ d.suspicious_list,
        recordForCode cd a = true ∧ a.ip_status ≠ "NORMAL") ∧
      ((st.attendance.filter
          (fun a => recordForCode cd a && a.ip_status != "NORMAL")).length ≤ 500 →
        ∀ a ∈ st.attendance, recordForCode cd a = true → a.ip_status ≠ "NORMAL" →
          a ∈ d.suspicious_list) := by
  have hd : teacher_code_detail st code_id now = some
      { code := cd,
        is_active := Nat.blt now cd.valid_until,
        attendance_list :=
          (((st.attendance.filter (recordForCode cd)).insertionSort
            attTsGE).take 500),
        suspicious_list :=
          (((st.attendance.filter
              (fun a => recordForCode cd a && a.ip_status != "NORMAL")).insertionSort
            attTsGE).take 500) } := by
    rw [teacher_code_detail, h]
  refine ⟨_, hd, rfl, ?_, ?_, ?_, ?_, ?_, ?_, ?_⟩
  · rw [Nat.blt_eq]
  · show ((((st.attendance.filter (recordForCode cd)).insertionSort
        attTsGE).take 500)).length = _
    rw [List.length_take, List.length_insertionSort]
  · show ((((st.attendance.filter
        (fun a => recordForCode cd a && a.ip_status != "NORMAL")).insertionSort
        attTsGE).take 500)).length = _
    rw [List.length_take, List.length_insertionSort]
  · exact List.Pairwise.sublist (List.take_sublist _ _)
      (List.sorted_insertionSort attTsGE _)
  · exact List.Pairwise.sublist (List.take_sublist _ _)
      (List.sorted_insertionSort attTsGE _)
  · intro a ha
    have h1 := (List.take_sublist _ _).subset ha
    rw [List.mem_insertionSort] at h1
    rw [List.mem_filter] at h1
    have h2 := h1.2
    rw [Bool.and_eq_true, bne_iff_ne] at h2
    exact ⟨h2.1, h2.2⟩
  · intro hlen a ham hrec hstat
    have hf : a ∈ st.attendance.filter
        (fun a => recordForCode cd a && a.ip_status != "NORMAL") :=
      List.mem_filter.mpr ⟨ham, by rw [Bool.and_eq_true, bne_iff_ne]; exact ⟨hrec, hstat⟩⟩
    have hs : a ∈ (st.attendance.filter
        (fun a => recordForCode cd a && a.ip_status != "NORMAL")).insertionSort attTsGE :=
      (List.mem_insertionSort attTsGE).mpr hf
    have hlen2 : ((st.attendance.filter
        (fun a => recordForCode cd a && a.ip_status != "NORMAL")).insertionSort
          attTsGE).length ≤ 500 := by
      rw [List.length_insertionSort]
      exact hlen
    show a ∈ ((st.attendance.filter
      (fun a => recordForCode cd a && a.ip_status != "NORMAL")).insertionSort
        attTsGE).take 500
    rw [List.take_of_length_le hlen2]
    exact hs

/-- Witness for C5 at a concrete state: one code, one `DEV` record that
shows up in the suspicious list. -/
theorem teacher_code_detail_spec_witness :
    (teacher_code_detail
      ⟨[⟨0, "d", "c", 0, 5⟩], [⟨"a", "d", "c", "127.0.0.1", "DEV", "m", 3⟩]⟩
      0 7).isSome = true := by
  obtain ⟨d, hd, _⟩ := teacher_code_detail_spec
    ⟨[⟨0, "d", "c", 0, 5⟩], [⟨"a", "d", "c", "127.0.0.1", "DEV", "m", 3⟩]⟩
    0 7 ⟨0, "d", "c", 0, 5⟩ (by decide)
  rw [hd]
  rfl

/-- One code and 501 matching `NORMAL` attendance records: one more
record than the `to_list(length=500)` cap of the detail queries. -/
def manyRecordsState : AppState :=
  ⟨[⟨0, "d", "c", 0, 5⟩],
    List.replicate 501 ⟨"a", "d", "c", "210.108.18.9", "NORMAL", "m", 3⟩⟩

set_option maxRecDepth 40000 in
/-- Counterexample to C5 as stated: 501 records match the code
(`N = 501`), yet `attendance_list` has only 500 entries, because the
query is capped at 500 documents. -/
theorem code_review_cap_counterexample :
    (manyRecordsState.attendance.filter
      (recordForCode ⟨0, "d", "c", 0, 5⟩)).length = 501 ∧
    (teacher_code_detail manyRecordsState 0 9).map
      (fun d => d.attendance_list.length) = some 500 := by
  decide

/-! ## Helper lemmas about the deduplication loop -/

/-- The session entries are a sublist of the codes mapped to entries. -/
lemma sessionsLoop_sublist (cs : List Code) (seen : List String) :
    (sessionsLoop cs seen).Sublist
      (cs.map (fun c => (⟨c.session_date, c.valid_until⟩ : SessionEntry))) := by
  induction cs generalizing seen with
  | nil => simp [sessionsLoop]
  | cons c cs ih =>
      by_cases h : c.session_date ∈ seen
      · rw [sessionsLoop, if_pos h, List.map_cons]
        exact List.Sublist.cons _ (ih seen)
      · rw [sessionsLoop, if_neg h, List.map_cons]
        exact List.Sublist.cons₂ _ (ih _)

/-- Every produced entry has an unseen date and comes from the first
code in the list carrying that date. -/
lemma sessionsLoop_mem (cs : List Code) (seen : List String) :
    ∀ e ∈ sessionsLoop cs seen,
      e.session_date ∉ seen ∧
      ∃ c, cs.find? (fun c0 => c0.session_date == e.session_date) = some c ∧
        c.valid_until = e.valid_until := by
  induction cs generalizing seen with
  | nil => simp [sessionsLoop]
  | cons c cs ih =>
      intro e he
      by_cases h : c.session_date ∈ seen
      · rw [sessionsLoop, if_pos h] at he
        obtain ⟨hni, c', hf, hvu⟩ := ih seen e he
        have hne : ¬(c.session_date == e.session_date) = true := by
          intro hb
          exact hni (beq_iff_eq.mp hb ▸ h)
        exact ⟨hni, c',
          by rw [@List.find?_cons_of_neg _
            (fun c0 => c0.session_date == e.session_date) c cs hne]; exact hf, hvu⟩
      · rw [sessionsLoop, if_neg h] at he
        rcases List.mem_cons.mp he with rfl | he'
        · refine ⟨h, c, ?_, rfl⟩
          exact List.find?_cons_of_pos _ (by simp)
        · obtain ⟨hni, c', hf, hvu⟩ := ih (c.session_date :: seen) e he'
          rw [List.mem_cons, not_or] at hni
          have hne : ¬(c.session_date == e.session_date) = true := by
            intro hb
            exact hni.1 (beq_iff_eq.mp hb).symm
          exact ⟨hni.2, c',
            by rw [@List.find?_cons_of_neg _
              (fun c0 => c0.session_date == e.session_date) c cs hne]; exact hf, hvu⟩

/-- Every code whose date is unseen is represented by some entry. -/
lemma sessionsLoop_covers (cs : List Code) (seen : List String) :
    ∀ c ∈ cs, c.session_date ∉ seen →
      ∃ e ∈ sessionsLoop cs seen, e.session_date = c.session_date := by
  induction cs generalizing seen with
  | nil => simp
  | cons c0 cs ih =>
      intro c hc hnotin
      by_cases h : c0.session_date ∈ seen
      · rw [sessionsLoop, if_pos h]
        rcases List.mem_cons.mp hc with rfl | hc'
        · exact absurd h hnotin
        · exact ih seen c hc' hnotin
      · rw [sessionsLoop, if_neg h]
        rcases List.mem_cons.mp hc with rfl | hc'
        · exact ⟨⟨c.session_date, c.valid_until⟩, List.mem_cons_self _ _, rfl⟩
        · by_cases hd : c.session_date = c0.session_date
          · exact ⟨⟨c0.session_date, c0.valid_until⟩, List.mem_cons_self _ _, hd.symm⟩
          · have hn2 : c.session_date ∉ c0.session_date :: seen := by
              rw [List.mem_cons, not_or]
              exact ⟨hd, hnotin⟩
            obtain ⟨e, he, hesd⟩ := ih (c0.session_date :: seen) c hc' hn2
            exact ⟨e, List.mem_cons_of_mem _ he, hesd⟩

/-- The produced dates are pairwise distinct. -/
lemma sessionsLoop_dates_nodup (cs : List Code) (seen : List String) :
    ((sessionsLoop cs seen).map SessionEntry.session_date).Nodup := by
  induction cs generalizing seen with
  | nil => simp [sessionsLoop]
  | cons c cs ih =>
      by_cases h : c.session_date ∈ seen
      · rw [sessionsLoop, if_pos h]
        exact ih seen
      · rw [sessionsLoop, if_neg h, List.map_cons]
        rw [List.nodup_cons]
        refine ⟨?_, ih _⟩
        intro hmem
        rw [List.mem_map] at hmem
        obtain ⟨e, he, hesd⟩ := hmem
        have := (sessionsLoop_mem cs (c.session_date :: seen) e he).1
        rw [hesd] at this
        exact this (List.mem_cons_self _ _)

/-! ## Claim theorems: session picker -/

/-- C8 (amended): `list_active_sessions` has pairwise-distinct
`session_date`s; each entry carries the `valid_until` of the first code
with its date in the capped active-code list (ascending `valid_until`
order, `to_list(length=100)`); every code of that capped list is
represented; the entries preserve the ascending order; and every entry
stems from a stored active code. -/
theorem get_active_sessions_spec (st : AppState) (now : Nat) :
    ((get_active_sessions st now).map SessionEntry.session_date).Nodup ∧
    (∀ e ∈ get_active_sessions st now,
      ∃ c, (activeCodesCapped st now).find?
          (fun c0 => c0.session_date == e.session_date) = some c ∧
        c.valid_until = e.valid_until) ∧
    (∀ c ∈ activeCodesCapped st now,
      ∃ e ∈ get_active_sessions st now, e.session_date = c.session_date) ∧
    List.Sorted (fun a b : SessionEntry => a.valid_until ≤ b.valid_until)
      (get_active_sessions st now) ∧
    (∀ e ∈ get_active_sessions st now, ∃ c ∈ st.codes,
      now < c.valid_until ∧ c.session_date = e.session_date ∧
        c.valid_until = e.valid_until) := by
  refine ⟨?_, ?_, ?_, ?_, ?_⟩
  · exact sessionsLoop_dates_nodup _ _
  · intro e he
    obtain ⟨_, c, hf, hvu⟩ := sessionsLoop_mem _ _ e he
    exact ⟨c, hf, hvu⟩
  · intro c hc
    exact sessionsLoop_covers _ _ c hc (List.not_mem_nil _)
  · have hsorted : List.Sorted codeVuLE (activeCodesCapped st now) :=
      List.Pairwise.sublist (List.take_sublist _ _)
        (List.sorted_insertionSort codeVuLE _)
    have hmap : List.Pairwise
        (fun a b : SessionEntry => a.valid_until ≤ b.valid_until)
        ((activeCodesCapped st now).map
          (fun c => (⟨c.session_date, c.valid_until⟩ : SessionEntry))) := by
      rw [List.pairwise_map]
      exact hsorted
    exact List.Pairwise.sublist (sessionsLoop_sublist _ _) hmap
  · intro e he
    obtain ⟨_, c, hf, hvu⟩ := sessionsLoop_mem _ _ e he
    have hc := List.mem_of_find?_eq_some hf
    have hsd : c.session_date = e.session_date := by
      have h0 := List.find?_some hf
      simp only [beq_iff_eq] at h0
      exact h0
    have h1 := (List.take_sublist _ _).subset hc
    rw [List.mem_insertionSort] at h1
    rw [List.mem_filter] at h1
    refine ⟨c, h1.1, ?_, hsd, hvu⟩
    have := h1.2
    rwa [Nat.blt_eq] at this

/-- Witness for C8: a single active code yields an entry for its date. -/
theorem get_active_sessions_spec_witness :
    ∃ e ∈ get_active_sessions ⟨[⟨0, "a", "c", 0, 5⟩], []⟩ 1,
      e.session_date = (⟨0, "a", "c", 0, 5⟩ : Code).session_date :=
  (get_active_sessions_spec ⟨[⟨0, "a", "c", 0, 5⟩], []⟩ 1).2.2.1
    ⟨0, "a", "c", 0, 5⟩ (by decide)

/-- One hundred active codes for date "a" expiring before the single
active code for date "b": the "b" code is the 101st document of the
capped query. -/
def manyDatesState : AppState :=
  ⟨(List.range 101).map
    (fun i => ⟨i, if i < 100 then "a" else "b", "c", 0, i + 1⟩), []⟩

set_option maxRecDepth 20000 in
/-- Counterexample to C8 as stated: session date "b" belongs to an
active code, yet no session entry carries it, because the underlying
query is capped at 100 documents and the first 100 active codes all
carry date "a". -/
theorem active_sessions_cap_counterexample :
    (∃ c ∈ manyDatesState.codes, 0 < c.valid_until ∧ c.session_date = "b") ∧
    ∀ e ∈ get_active_sessions manyDatesState 0, e.session_date ≠ "b" := by
  decide

/-! ## Claim theorems: duplicate check matches the exact triple -/

/-- C10: the duplicate check matches the exact (`student_name`,
`session_date`, `code`) triple, so a student already recorded under code
`c1` for a session date who submits a different active code `c2` for the
same date is `Recorded` again, ending up with two attendance records for
that session date. -/
theorem student_attend_second_code_spec (st : AppState) (req : Request)
    (sn sd c1 c2 : String) (now : Nat) (r : AttendanceRecord)
    (hr : r ∈ st.attendance) (hrn : r.student_name = sn)
    (hrs : r.session_date = sd) (hrc : r.attendance_code = c1)
    (hne : c1 ≠ c2)
    (hcode : ∃ c ∈ st.codes, codeMatches sd c2 now c = true)
    (hnorec : ∀ a ∈ st.attendance, attMatches sn sd c2 a = false) :
    (student_attend st req sn sd c2 now).outcome = Outcome.Recorded ∧
    (student_attend st req sn sd c2 now).state.attendance =
      st.attendance ++
        [⟨sn, sd, c2, get_client_ip req, (classify_ip (get_client_ip req)).1,
          (classify_ip (get_client_ip req)).2, now⟩] ∧
    2 ≤ ((student_attend st req sn sd c2 now).state.attendance.filter
      (fun a => a.student_name == sn && a.session_date == sd)).length := by
  rw [student_attend_recorded_core st req sn sd c2 now hcode hnorec]
  refine ⟨rfl, rfl, ?_⟩
  rw [List.filter_append, List.length_append]
  have hmem : r ∈ st.attendance.filter
      (fun a => a.student_name == sn && a.session_date == sd) :=
    List.mem_filter.mpr
      ⟨hr, by rw [Bool.and_eq_true, beq_iff_eq, beq_iff_eq]; exact ⟨hrn, hrs⟩⟩
  have h1 : 0 < (st.attendance.filter
      (fun a => a.student_name == sn && a.session_date == sd)).length :=
    List.length_pos_of_mem hmem
  have h2 : (List.filter (fun a => a.student_name == sn && a.session_date == sd)
      [(⟨sn, sd, c2, get_client_ip req, (classify_ip (get_client_ip req)).1,
        (classify_ip (get_client_ip req)).2, now⟩ : AttendanceRecord)]).length = 1 := by
    simp
  omega

/-- Witness for C10: Alice holds a record under the expired code
"111111" and submits the fresh code "222222" for the same date. -/
theorem student_attend_second_code_spec_witness :
    2 ≤ ((student_attend
        ⟨[⟨0, "d1", "222222", 0, 100⟩],
          [⟨"alice", "d1", "111111", "9.9.9.9", "SUSPICIOUS", "m", 5⟩]⟩
        ⟨none, "8.8.8.8"⟩ "alice" "d1" "222222" 10).state.attendance.filter
      (fun a => a.student_name == "alice" && a.session_date == "d1")).length :=
  (student_attend_second_code_spec
    ⟨[⟨0, "d1", "222222", 0, 100⟩],
      [⟨"alice", "d1", "111111", "9.9.9.9", "SUSPICIOUS", "m", 5⟩]⟩
    ⟨none, "8.8.8.8"⟩ "alice" "d1" "111111" "222222" 10
    ⟨"alice", "d1", "111111", "9.9.9.9", "SUSPICIOUS", "m", 5⟩
    (by decide) rfl rfl rfl (by decide) (by decide) (by decide)).2.2
